import Mathlib

/-!
Verification of the frezze repository-freeze service.

This file gives a shallow embedding of the core of the frezze code base:
the freeze lifecycle engine (`FreezeRecord::create`, `handle_unfreeze`,
`schedule_freeze`, the scheduler worker's activation step), the unlock
registry (`UnlockedPr`), and the check-run synchronizer
(`refresh_repository_prs`, `update_prs_in_batches`, `update_pr_with_retry`,
`refresh_single_pr`).  Timestamps are modelled as natural numbers; optional
timestamps (`expires_at`, a missing end meaning "no end time") as
`Option Nat`.  Remote calls are modelled by explicit inputs: the list of
open pull requests a gateway would return (or `none` for a gateway
failure), and boolean oracles saying which remote attempts succeed.
-/

namespace Frezze

/-- Status of a freeze record, as stored in the `status` column
(`scheduled`, `active`, `expired`, `ended`). -/
inductive FreezeStatus
  | scheduled
  | active
  | expired
  | ended
deriving DecidableEq, Repr

/-- One freeze record, mirroring the Rust `FreezeRecord` model: repository in
"owner/repo" form, installation id, a half-open time window
`[started_at, expires_at)` where `expires_at = none` means no end, optional
branch scope (`none` means all branches), and bookkeeping fields. -/
structure FreezeRecord where
  id : Nat
  repository : String
  installation_id : Int
  started_at : Nat
  expires_at : Option Nat
  ended_at : Option Nat
  reason : Option String
  initiated_by : String
  ended_by : Option String
  status : FreezeStatus
  branch : Option String
  created_at : Nat
deriving DecidableEq, Repr

/-- One unlock-registry record, mirroring the Rust `UnlockedPr` model. -/
structure UnlockedPr where
  id : Nat
  repository : String
  installation_id : Int
  pr_number : Nat
  unlocked_by : String
  unlocked_at : Nat
deriving DecidableEq, Repr

/-- Strict comparison `t < e` where `e : Option Nat` and `none` stands for an unbounded
(`+∞`) endpoint. -/
def ltOpt (t : Nat) (e : Option Nat) : Bool :=
  match e with
  | none => true
  | some x => t < x

/-- The two half-open intervals `[s1, e1)` and `[s2, e2)` intersect, a
missing end being treated as `+∞`: `s2 < e1` and `s1 < e2`. -/
def intervalsIntersect (s1 : Nat) (e1 : Option Nat) (s2 : Nat) (e2 : Option Nat) : Bool :=
  ltOpt s2 e1 && ltOpt s1 e2

/-- The overlap test of `FreezeRecord::create` (libs/database/src/freeze.rs):
the SQL disjunction over an existing active record `[S, E)` against the new
record's `[s2, e2)`, with SQL nulls handled exactly as the query does
(a comparison against a NULL bind is not satisfied unless guarded by an
explicit `IS NULL`):
`(started_at <= $3 AND (expires_at IS NULL OR expires_at > $3))
 OR (started_at < $4 AND (expires_at IS NULL OR expires_at >= $4))
 OR ($3 <= started_at AND ($4 IS NULL OR $4 > started_at))`. -/
def sqlOverlap (S : Nat) (E : Option Nat) (s2 : Nat) (e2 : Option Nat) : Bool :=
  (decide (S ≤ s2) && (match E with | none => true | some x => decide (s2 < x)))
  || (match e2 with
      | none => false
      | some y => decide (S < y) && (match E with | none => true | some x => decide (y ≤ x)))
  || (decide (s2 ≤ S) && (match e2 with | none => true | some y => decide (S < y)))

/-- Interval intersection implies the SQL overlap disjunction of
`FreezeRecord::create`, with no assumption on the intervals. -/
theorem intersect_imp_sqlOverlap (S : Nat) (E : Option Nat) (s2 : Nat) (e2 : Option Nat)
    (h : intervalsIntersect S E s2 e2 = true) :
    sqlOverlap S E s2 e2 = true := by
  cases E <;> cases e2 <;>
    simp only [sqlOverlap, intervalsIntersect, ltOpt, Bool.or_eq_true, Bool.and_eq_true,
      Bool.true_and, Bool.and_true, Bool.false_or, Bool.or_false,
      decide_eq_true_eq] at h ⊢ <;>
    omega

/-- For non-degenerate intervals (each record's start lies strictly before
its end), the SQL overlap disjunction of `FreezeRecord::create` is exactly
intersection of the two half-open intervals. -/
theorem sqlOverlap_eq_intersect (S : Nat) (E : Option Nat) (s2 : Nat) (e2 : Option Nat)
    (hS : ltOpt S E = true) (hs2 : ltOpt s2 e2 = true) :
    sqlOverlap S E s2 e2 = intervalsIntersect S E s2 e2 := by
  cases E <;> cases e2 <;>
    rw [Bool.eq_iff_iff] <;>
    simp only [sqlOverlap, intervalsIntersect, ltOpt, Bool.or_eq_true, Bool.and_eq_true,
      Bool.true_and, Bool.and_true, Bool.false_or, Bool.or_false,
      decide_eq_true_eq, iff_true, true_iff] at hS hs2 ⊢ <;>
    omega

/-- The `WHERE` filter of the overlap query of `FreezeRecord::create`:
an existing record blocks the new one when it is on the same
(installation, repository) pair, has status `active`, and its interval
satisfies the SQL overlap disjunction against the new record's interval. -/
def overlapsActive (recs : List FreezeRecord) (record : FreezeRecord) : Bool :=
  recs.any fun r =>
    r.repository == record.repository &&
    r.installation_id == record.installation_id &&
    r.status == FreezeStatus.active &&
    sqlOverlap r.started_at r.expires_at record.started_at record.expires_at

/-- Model of `FreezeRecord::create` (libs/database/src/freeze.rs): run the overlap
query; if any existing active record on the pair overlaps, return the
validation error and leave the store untouched; otherwise insert the record
and return it.  The store is the list of rows of `freeze_records`. -/
def FreezeRecord.create (recs : List FreezeRecord) (record : FreezeRecord) :
    Except String FreezeRecord × List FreezeRecord :=
  if overlapsActive recs record then
    (Except.error "A freeze record already exists for this time period", recs)
  else
    (Except.ok record, recs ++ [record])

/-- The overlap query finds a row exactly when some active record on the
pair has an intersecting interval, provided all the intervals involved are
non-degenerate. -/
theorem overlapsActive_iff_intersect (recs : List FreezeRecord) (record : FreezeRecord)
    (hvalid : ∀ r ∈ recs, r.repository = record.repository →
      r.installation_id = record.installation_id → r.status = FreezeStatus.active →
      ltOpt r.started_at r.expires_at = true)
    (hrec : ltOpt record.started_at record.expires_at = true) :
    overlapsActive recs record = true ↔
      ∃ r ∈ recs, r.repository = record.repository ∧
        r.installation_id = record.installation_id ∧ r.status = FreezeStatus.active ∧
        intervalsIntersect r.started_at r.expires_at record.started_at record.expires_at
          = true := by
  simp only [overlapsActive, List.any_eq_true, Bool.and_eq_true, beq_iff_eq]
  constructor
  · rintro ⟨r, hr, ⟨⟨⟨hrepo, hinst⟩, hstat⟩, hov⟩⟩
    refine ⟨r, hr, hrepo, hinst, hstat, ?_⟩
    rw [← sqlOverlap_eq_intersect _ _ _ _ (hvalid r hr hrepo hinst hstat) hrec]
    exact hov
  · rintro ⟨r, hr, hrepo, hinst, hstat, hint⟩
    refine ⟨r, hr, ⟨⟨⟨hrepo, hinst⟩, hstat⟩, ?_⟩⟩
    rw [sqlOverlap_eq_intersect _ _ _ _ (hvalid r hr hrepo hinst hstat) hrec]
    exact hint

/-- C3: for a repository with an Active freeze `[s1, e1)` (missing end =
`+∞`), creating a new freeze `[s2, e2)` on the same (installation,
repository) is rejected — the validation error is returned and the store
is left unchanged — iff the intervals intersect, and otherwise the record
is accepted and persisted, the intervals being non-degenerate. -/
theorem create_rejects_iff_intervals_intersect
    (recs : List FreezeRecord) (record : FreezeRecord)
    (hvalid : ∀ r ∈ recs, r.repository = record.repository →
      r.installation_id = record.installation_id → r.status = FreezeStatus.active →
      ltOpt r.started_at r.expires_at = true)
    (hrec : ltOpt record.started_at record.expires_at = true) :
    (FreezeRecord.create recs record =
        (Except.error "A freeze record already exists for this time period", recs) ↔
      ∃ r ∈ recs, r.repository = record.repository ∧
        r.installation_id = record.installation_id ∧ r.status = FreezeStatus.active ∧
        intervalsIntersect r.started_at r.expires_at record.started_at record.expires_at
          = true) ∧
    ((¬ ∃ r ∈ recs, r.repository = record.repository ∧
        r.installation_id = record.installation_id ∧ r.status = FreezeStatus.active ∧
        intervalsIntersect r.started_at r.expires_at record.started_at record.expires_at
          = true) →
      FreezeRecord.create recs record = (Except.ok record, recs ++ [record])) := by
  have key := overlapsActive_iff_intersect recs record hvalid hrec
  constructor
  · constructor
    · intro h
      rw [← key]
      by_contra hov
      have hov' : overlapsActive recs record = false := by
        cases hq : overlapsActive recs record with
        | false => rfl
        | true => exact absurd hq hov
      simp [FreezeRecord.create, hov'] at h
    · intro h
      have hov := key.mpr h
      simp [FreezeRecord.create, hov]
  · intro h
    have hov : overlapsActive recs record = false := by
      cases hq : overlapsActive recs record with
      | false => rfl
      | true => exact absurd (key.mp hq) h
    simp [FreezeRecord.create, hov]

/-- A sample active freeze over `[0, 10)` used by concrete witnesses. -/
def sampleActiveFreeze : FreezeRecord :=
  { id := 1, repository := "octo/repo", installation_id := 7, started_at := 0,
    expires_at := some 10, ended_at := none, reason := none,
    initiated_by := "alice", ended_by := none, status := FreezeStatus.active,
    branch := none, created_at := 0 }

/-- A sample freeze request over `[5, 15)` on the same pair, overlapping
`sampleActiveFreeze`. -/
def sampleNewFreeze : FreezeRecord :=
  { id := 2, repository := "octo/repo", installation_id := 7, started_at := 5,
    expires_at := some 15, ended_at := none, reason := none,
    initiated_by := "bob", ended_by := none, status := FreezeStatus.active,
    branch := none, created_at := 5 }

/-- Witness for C3 at a concrete store: one active freeze `[0, 10)`, a new
request `[5, 15)` on the same pair. -/
theorem create_rejects_iff_intervals_intersect_witness :
    (∀ r ∈ [sampleActiveFreeze], r.repository = sampleNewFreeze.repository →
      r.installation_id = sampleNewFreeze.installation_id →
      r.status = FreezeStatus.active → ltOpt r.started_at r.expires_at = true) ∧
    ltOpt sampleNewFreeze.started_at sampleNewFreeze.expires_at = true ∧
    ((FreezeRecord.create [sampleActiveFreeze] sampleNewFreeze =
        (Except.error "A freeze record already exists for this time period",
          [sampleActiveFreeze]) ↔
      ∃ r ∈ [sampleActiveFreeze], r.repository = sampleNewFreeze.repository ∧
        r.installation_id = sampleNewFreeze.installation_id ∧
        r.status = FreezeStatus.active ∧
        intervalsIntersect r.started_at r.expires_at sampleNewFreeze.started_at
          sampleNewFreeze.expires_at = true) ∧
    ((¬ ∃ r ∈ [sampleActiveFreeze], r.repository = sampleNewFreeze.repository ∧
        r.installation_id = sampleNewFreeze.installation_id ∧
        r.status = FreezeStatus.active ∧
        intervalsIntersect r.started_at r.expires_at sampleNewFreeze.started_at
          sampleNewFreeze.expires_at = true) →
      FreezeRecord.create [sampleActiveFreeze] sampleNewFreeze =
        (Except.ok sampleNewFreeze, [sampleActiveFreeze] ++ [sampleNewFreeze]))) :=
  ⟨by decide, by decide,
    create_rejects_iff_intervals_intersect [sampleActiveFreeze] sampleNewFreeze
      (by decide) (by decide)⟩

/-- Two records conflict when they are on the same (installation,
repository) pair, both have status `active`, and their
`[started_at, expires_at)` intervals intersect (missing end = `+∞`). -/
def activeConflict (r1 r2 : FreezeRecord) : Bool :=
  r1.installation_id == r2.installation_id &&
  r1.repository == r2.repository &&
  r1.status == FreezeStatus.active &&
  r2.status == FreezeStatus.active &&
  intervalsIntersect r1.started_at r1.expires_at r2.started_at r2.expires_at

/-- The data-model invariant: no two records of the store conflict. -/
def noActiveOverlap : List FreezeRecord → Bool
  | [] => true
  | r :: rs => (rs.all fun r2 => !activeConflict r r2) && noActiveOverlap rs

/-- The store operations of the core: `handle_freeze` (immediate freeze,
inserted with status Active through `FreezeRecord::create`),
`schedule_freeze` (inserted with status Scheduled through the same
`create`), the scheduler worker's activation of a due Scheduled record
(`activate_scheduled_freeze`, a plain `update_status` to Active with no
overlap re-check), and `handle_unfreeze`. -/
inductive FreezeOp
  | createActive (record : FreezeRecord)
  | createScheduled (record : FreezeRecord)
  | schedulerActivate (id : Nat) (now : Nat)
  | endFreeze (installation_id : Int) (repository : String) (actor : String) (now : Nat)
deriving DecidableEq, Repr

/-- Whether an operation is the scheduler's activation step. -/
def FreezeOp.isSchedulerActivate : FreezeOp → Bool
  | FreezeOp.schedulerActivate _ _ => true
  | _ => false

/-- One store transition.  `createActive`/`createScheduled` go through
`FreezeRecord::create` (a rejected create writes nothing);
`schedulerActivate` flips a Scheduled record whose `started_at` has passed
to Active exactly as `update_status(.., Active, None)` does, with no
overlap check; `endFreeze` transitions every Active record of the pair to
Ended with `ended_by` the actor and `ended_at` the current time (and, when
no Active record exists, errors without touching the store). -/
def applyOp (recs : List FreezeRecord) : FreezeOp → List FreezeRecord
  | FreezeOp.createActive record =>
      (FreezeRecord.create recs
        { record with status := FreezeStatus.active, ended_at := none, ended_by := none }).2
  | FreezeOp.createScheduled record =>
      (FreezeRecord.create recs
        { record with status := FreezeStatus.scheduled, ended_at := none, ended_by := none }).2
  | FreezeOp.schedulerActivate id now =>
      recs.map fun r =>
        if r.id == id && r.status == FreezeStatus.scheduled && decide (r.started_at ≤ now) then
          { r with status := FreezeStatus.active, ended_at := none, ended_by := none }
        else r
  | FreezeOp.endFreeze inst repo actor now =>
      if recs.any (fun r => r.installation_id == inst && r.repository == repo &&
          r.status == FreezeStatus.active) then
        recs.map fun r =>
          if r.installation_id == inst && r.repository == repo &&
              r.status == FreezeStatus.active then
            { r with
              status := FreezeStatus.ended
              ended_by := some actor
              ended_at := some now }
          else r
      else recs

/-- Run a sequence of store operations from the empty store. -/
def applyOps (ops : List FreezeOp) : List FreezeRecord :=
  ops.foldl applyOp []

/-- A conflict forces both records to be Active. -/
theorem activeConflict_active {r1 r2 : FreezeRecord} (h : activeConflict r1 r2 = true) :
    r1.status = FreezeStatus.active ∧ r2.status = FreezeStatus.active := by
  simp only [activeConflict, Bool.and_eq_true, beq_iff_eq] at h
  exact ⟨h.1.1.2, h.1.2⟩

/-- Appending one record: the invariant holds iff it held before and the
new record conflicts with no existing one. -/
theorem noActiveOverlap_append_singleton (rs : List FreezeRecord) (a : FreezeRecord) :
    noActiveOverlap (rs ++ [a]) =
      (noActiveOverlap rs && rs.all fun r => !activeConflict r a) := by
  induction rs with
  | nil => simp [noActiveOverlap]
  | cons r rs ih =>
    rw [List.cons_append, Bool.eq_iff_iff]
    simp only [noActiveOverlap, ih, List.all_append, List.all_cons, List.all_nil,
      Bool.and_true, Bool.and_eq_true, List.all_eq_true]
    tauto

/-- When the overlap query of `create` finds nothing, the inserted record
conflicts with no existing one. -/
theorem no_conflict_of_not_overlapsActive {recs : List FreezeRecord} {record : FreezeRecord}
    (hov : overlapsActive recs record = false) :
    ∀ r ∈ recs, activeConflict r record = false := by
  intro r hr
  cases hc : activeConflict r record with
  | false => rfl
  | true =>
    exfalso
    simp only [activeConflict, Bool.and_eq_true, beq_iff_eq] at hc
    obtain ⟨⟨⟨⟨hinst, hrepo⟩, hst1⟩, _⟩, hint⟩ := hc
    have : overlapsActive recs record = true := by
      simp only [overlapsActive, List.any_eq_true, Bool.and_eq_true, beq_iff_eq]
      exact ⟨r, hr, ⟨⟨⟨hrepo, hinst⟩, hst1⟩,
        intersect_imp_sqlOverlap _ _ _ _ hint⟩⟩
    rw [this] at hov
    cases hov

/-- A record that is not Active conflicts with nothing on its right. -/
theorem no_conflict_of_not_active {record : FreezeRecord}
    (h : record.status ≠ FreezeStatus.active) :
    ∀ r : FreezeRecord, activeConflict r record = false := by
  intro r
  cases hc : activeConflict r record with
  | false => rfl
  | true => exact absurd (activeConflict_active hc).2 h

/-- Mapping a function that leaves every record it keeps Active untouched
preserves the invariant. -/
theorem noActiveOverlap_map (f : FreezeRecord → FreezeRecord)
    (hf : ∀ r, (f r).status = FreezeStatus.active → f r = r) :
    ∀ rs : List FreezeRecord, noActiveOverlap rs = true →
      noActiveOverlap (rs.map f) = true := by
  intro rs
  induction rs with
  | nil => intro _; rfl
  | cons r rs ih =>
    intro h
    simp only [noActiveOverlap, Bool.and_eq_true, List.all_eq_true] at h
    obtain ⟨hall, hrest⟩ := h
    simp only [List.map_cons, noActiveOverlap, Bool.and_eq_true, List.all_eq_true]
    refine ⟨?_, ih hrest⟩
    intro x hx
    obtain ⟨r2, hr2, rfl⟩ := List.mem_map.mp hx
    cases hc : activeConflict (f r) (f r2) with
    | false => rfl
    | true =>
      exfalso
      obtain ⟨h1, h2⟩ := activeConflict_active hc
      rw [hf r h1, hf r2 h2] at hc
      have := hall r2 hr2
      rw [hc] at this
      cases this

/-- Whatever `create` does — reject or insert — the resulting store still
satisfies the invariant. -/
theorem create_preserves_noActiveOverlap (recs : List FreezeRecord) (record : FreezeRecord)
    (hinv : noActiveOverlap recs = true) :
    noActiveOverlap (FreezeRecord.create recs record).2 = true := by
  cases hov : overlapsActive recs record with
  | true => simp [FreezeRecord.create, hov, hinv]
  | false =>
    simp only [FreezeRecord.create, hov, Bool.false_eq_true, if_false]
    rw [noActiveOverlap_append_singleton, Bool.and_eq_true, List.all_eq_true]
    refine ⟨hinv, ?_⟩
    intro r hr
    rw [no_conflict_of_not_overlapsActive hov r hr]
    rfl

/-- Every single non-activation operation preserves the invariant. -/
theorem applyOp_preserves_noActiveOverlap (recs : List FreezeRecord) (o : FreezeOp)
    (ho : o.isSchedulerActivate = false) (hinv : noActiveOverlap recs = true) :
    noActiveOverlap (applyOp recs o) = true := by
  cases o with
  | createActive record => exact create_preserves_noActiveOverlap recs _ hinv
  | createScheduled record => exact create_preserves_noActiveOverlap recs _ hinv
  | schedulerActivate id now => simp [FreezeOp.isSchedulerActivate] at ho
  | endFreeze inst repo actor now =>
    simp only [applyOp]
    cases hany : recs.any (fun r => r.installation_id == inst && r.repository == repo &&
        r.status == FreezeStatus.active) with
    | false => exact hinv
    | true =>
      simp only [if_true]
      refine noActiveOverlap_map _ ?_ recs hinv
      intro r hact
      by_cases hcond : (r.installation_id == inst && r.repository == repo &&
          r.status == FreezeStatus.active) = true
      · exfalso
        rw [if_pos hcond] at hact
        simp at hact
      · rw [if_neg hcond]

/-- Folding operations preserves the invariant when none is a scheduler
activation. -/
theorem foldl_applyOp_preserves (ops : List FreezeOp) :
    ∀ recs : List FreezeRecord, (∀ o ∈ ops, o.isSchedulerActivate = false) →
      noActiveOverlap recs = true → noActiveOverlap (ops.foldl applyOp recs) = true := by
  induction ops with
  | nil => intro recs _ hinv; exact hinv
  | cons o ops ih =>
    intro recs h hinv
    exact ih _ (fun o' ho' => h o' (List.mem_cons_of_mem o ho'))
      (applyOp_preserves_noActiveOverlap recs o (h o (List.mem_cons_self o ops)) hinv)

/-- C4 (amended): every state reachable by create_freeze, schedule_freeze
and end_freeze alone — no Scheduler activation — has no two Active records
on the same (installation, repository) pair with intersecting
`[started_at, expires_at)` intervals. -/
theorem reachable_no_overlapping_active (ops : List FreezeOp)
    (h : ∀ o ∈ ops, o.isSchedulerActivate = false) :
    noActiveOverlap (applyOps ops) = true :=
  foldl_applyOp_preserves ops [] h rfl

/-- A scheduled freeze over `[10, 20)` on the sample pair. -/
def sampleScheduledFreeze : FreezeRecord :=
  { id := 11, repository := "octo/repo", installation_id := 7, started_at := 10,
    expires_at := some 20, ended_at := none, reason := none,
    initiated_by := "carol", ended_by := none, status := FreezeStatus.scheduled,
    branch := none, created_at := 0 }

/-- An immediate freeze over `[5, 15)` on the sample pair, overlapping the
scheduled one's window. -/
def sampleImmediateFreeze : FreezeRecord :=
  { id := 12, repository := "octo/repo", installation_id := 7, started_at := 5,
    expires_at := some 15, ended_at := none, reason := none,
    initiated_by := "dave", ended_by := none, status := FreezeStatus.active,
    branch := none, created_at := 5 }

/-- Witness for C4's amended statement on a concrete activation-free trace. -/
theorem reachable_no_overlapping_active_witness :
    (∀ o ∈ [FreezeOp.createActive sampleActiveFreeze,
        FreezeOp.endFreeze 7 "octo/repo" "alice" 3,
        FreezeOp.createActive sampleImmediateFreeze],
      o.isSchedulerActivate = false) ∧
    noActiveOverlap (applyOps [FreezeOp.createActive sampleActiveFreeze,
      FreezeOp.endFreeze 7 "octo/repo" "alice" 3,
      FreezeOp.createActive sampleImmediateFreeze]) = true :=
  ⟨by decide,
    reachable_no_overlapping_active [FreezeOp.createActive sampleActiveFreeze,
      FreezeOp.endFreeze 7 "octo/repo" "alice" 3,
      FreezeOp.createActive sampleImmediateFreeze] (by decide)⟩

/-- C4 counterexample: scheduling `[10, 20)`, then creating an immediate
freeze `[5, 15)` on the same pair (accepted — the overlap query only counts
Active rows), then letting the scheduler activate the due scheduled record
at time 10, yields two overlapping Active records: the invariant that held
before the activation is broken by it. -/
theorem scheduler_activation_breaks_invariant :
    noActiveOverlap (applyOps [FreezeOp.createScheduled sampleScheduledFreeze,
      FreezeOp.createActive sampleImmediateFreeze]) = true ∧
    noActiveOverlap (applyOps [FreezeOp.createScheduled sampleScheduledFreeze,
      FreezeOp.createActive sampleImmediateFreeze,
      FreezeOp.schedulerActivate 11 10]) = false := by
  constructor
  · decide
  · decide

/-- Model of `UnlockedPr::is_pr_unlocked`: the `COUNT(*) > 0` lookup over the rows
matching (installation_id, repository, pr_number). -/
def UnlockedPr.is_pr_unlocked (reg : List UnlockedPr) (installation_id : Int)
    (repository : String) (pr_number : Nat) : Bool :=
  reg.any fun u => u.installation_id == installation_id &&
    u.repository == repository && u.pr_number == pr_number

/-- The fresh registry row built by `unlock_pr`: a new id, the triple, the
actor and the current time. -/
def newUnlockRow (newId : Nat) (installation_id : Int) (repository : String)
    (pr_number : Nat) (unlocked_by : String) (now : Nat) : UnlockedPr :=
  { id := newId, repository := repository, installation_id := installation_id,
    pr_number := pr_number, unlocked_by := unlocked_by, unlocked_at := now }

/-- Modelled from the spec: the unique key of the `unlocked_prs` table —
what is missing from the sources is the SQL migration defining it — which
the spec gives as the (installation, repository, pr_number) triple, so the
`INSERT OR REPLACE` of `UnlockedPr::unlock_pr` replaces the row carrying
that triple.  The fresh row carries a new id, the actor and the current
time. -/
def UnlockedPr.unlock_pr (reg : List UnlockedPr) (newId : Nat) (installation_id : Int)
    (repository : String) (pr_number : Nat) (unlocked_by : String) (now : Nat) :
    List UnlockedPr :=
  (reg.filter fun u => !(u.installation_id == installation_id &&
    u.repository == repository && u.pr_number == pr_number)) ++
    [newUnlockRow newId installation_id repository pr_number unlocked_by now]

/-- Model of `UnlockedPr::clear_unlocked_prs`: delete every row of the repository. -/
def UnlockedPr.clear_unlocked_prs (reg : List UnlockedPr) (installation_id : Int)
    (repository : String) : List UnlockedPr :=
  reg.filter fun u => !(u.installation_id == installation_id &&
    u.repository == repository)

/-- The store visible to the lifecycle engine: the freeze records and the
unlock registry. -/
structure SystemState where
  freezes : List FreezeRecord
  unlocks : List UnlockedPr
deriving DecidableEq, Repr

/-- Model of `FreezeManager::handle_unfreeze` (src/freezer/manager.rs): list the
Active records of the (installation, repository) pair; when none exists,
error without touching the store; otherwise transition each to Ended with
`ended_by` the actor and `ended_at` the current time (`update_status`).
The function performs no unlock-registry operation: `clear_unlocked_prs`
has no caller anywhere in the sources. -/
def handle_unfreeze (st : SystemState) (installation_id : Int) (repository : String)
    (ended_by : String) (now : Nat) : Except String SystemState :=
  let actives := st.freezes.filter fun r => r.installation_id == installation_id &&
    r.repository == repository && r.status == FreezeStatus.active
  if actives.isEmpty then
    Except.error ("No active freeze found for repository: " ++ repository)
  else
    Except.ok
      { freezes := st.freezes.map fun r =>
          if r.installation_id == installation_id && r.repository == repository &&
              r.status == FreezeStatus.active then
            { r with
              status := FreezeStatus.ended
              ended_by := some ended_by
              ended_at := some now }
          else r
        unlocks := st.unlocks }

/-- An unlock-registry row for PR 6 of the sample repository. -/
def sampleUnlockedPr : UnlockedPr :=
  { id := 100, repository := "octo/repo", installation_id := 7, pr_number := 6,
    unlocked_by := "alice", unlocked_at := 2 }

/-- C2, evaluated at the failing input: unfreezing the sample repository
(one Active freeze, PR 6 unlocked) does transition the freeze to Ended
with `ended_by` the actor and `ended_at` the current time, but the unlock
registry still holds PR 6's record afterwards — `handle_unfreeze` never
purges the Unlock Registry. -/
theorem unfreeze_does_not_clear_unlock_registry :
    handle_unfreeze { freezes := [sampleActiveFreeze], unlocks := [sampleUnlockedPr] }
        7 "octo/repo" "alice" 3 =
      Except.ok
        { freezes := [{ sampleActiveFreeze with
            status := FreezeStatus.ended
            ended_by := some "alice"
            ended_at := some 3 }]
          unlocks := [sampleUnlockedPr] } ∧
    UnlockedPr.is_pr_unlocked [sampleUnlockedPr] 7 "octo/repo" 6 = true := by
  constructor
  · rfl
  · decide

/-- Outcome of the manager's unlock command: the registry after the upsert
and the pull request handed to `refresh_single_pr`, if any. -/
structure UnlockOutcome where
  unlocks : List UnlockedPr
  refreshed_pr : Option Nat
deriving DecidableEq, Repr

/-- Model of `FreezeManager::unlock_pr` (src/freezer/manager.rs): only proceeds when
the repository has an Active freeze; on that path it performs the registry
upsert and then refreshes that single pull request; with no Active freeze
it posts an error message and touches nothing. -/
def FreezeManager.unlock_pr (active : Option FreezeRecord) (reg : List UnlockedPr)
    (newId : Nat) (installation_id : Int) (repository : String) (pr_number : Nat)
    (author : String) (now : Nat) : UnlockOutcome :=
  match active with
  | some _ =>
      { unlocks := UnlockedPr.unlock_pr reg newId installation_id repository pr_number
          author now
        refreshed_pr := some pr_number }
  | none => { unlocks := reg, refreshed_pr := none }

/-- The rows of the registry carrying a given (installation, repository,
pr_number) triple. -/
def tripleRows (reg : List UnlockedPr) (installation_id : Int) (repository : String)
    (pr_number : Nat) : List UnlockedPr :=
  reg.filter fun u => u.installation_id == installation_id &&
    u.repository == repository && u.pr_number == pr_number

/-- Fact that `List.any` only depends on the predicate's values on the list. -/
theorem anyCongr {α : Type} {p q : α → Bool} :
    ∀ l : List α, (∀ a ∈ l, p a = q a) → l.any p = l.any q
  | [], _ => rfl
  | a :: l, h => by
    simp only [List.any_cons, h a (List.mem_cons_self a l),
      anyCongr l fun b hb => h b (List.mem_cons_of_mem a hb)]

/-- C5: the unlock upsert always succeeds and is keyed by the triple:
afterwards the triple is unlocked, exactly one row (the new one) carries
the triple — re-unlocking replaces rather than duplicates — every other
triple's lookup is unchanged, and the manager's unlock command (under an
Active freeze) triggers the single-change-request refresh for that pull
request. -/
theorem unlock_pr_upsert_spec (reg : List UnlockedPr) (newId : Nat)
    (installation_id : Int) (repository : String) (pr_number : Nat)
    (author : String) (now : Nat) (active : FreezeRecord)
    (inst2 : Int) (repo2 : String) (pr2 : Nat)
    (hdiff : ¬(inst2 = installation_id ∧ repo2 = repository ∧ pr2 = pr_number)) :
    UnlockedPr.is_pr_unlocked
      (UnlockedPr.unlock_pr reg newId installation_id repository pr_number author now)
      installation_id repository pr_number = true ∧
    tripleRows
      (UnlockedPr.unlock_pr reg newId installation_id repository pr_number author now)
      installation_id repository pr_number =
      [newUnlockRow newId installation_id repository pr_number author now] ∧
    UnlockedPr.is_pr_unlocked
      (UnlockedPr.unlock_pr reg newId installation_id repository pr_number author now)
      inst2 repo2 pr2 = UnlockedPr.is_pr_unlocked reg inst2 repo2 pr2 ∧
    (FreezeManager.unlock_pr (some active) reg newId installation_id repository pr_number
      author now).refreshed_pr = some pr_number := by
  refine ⟨?_, ?_, ?_, rfl⟩
  · simp [UnlockedPr.is_pr_unlocked, UnlockedPr.unlock_pr, List.any_append, newUnlockRow]
  · simp only [tripleRows, UnlockedPr.unlock_pr, List.filter_append, List.filter_filter]
    have h1 : ∀ u : UnlockedPr,
        ((u.installation_id == installation_id && u.repository == repository &&
          u.pr_number == pr_number) &&
         !(u.installation_id == installation_id && u.repository == repository &&
          u.pr_number == pr_number)) = false := by
      intro u
      cases u.installation_id == installation_id && u.repository == repository &&
        u.pr_number == pr_number <;> rfl
    rw [List.filter_congr (fun u _ => h1 u)]
    simp [newUnlockRow]
  · simp only [UnlockedPr.is_pr_unlocked, UnlockedPr.unlock_pr, List.any_append,
      List.any_filter, List.any_cons, List.any_nil, Bool.or_false, newUnlockRow]
    have hnew : (installation_id == inst2 && repository == repo2 && pr_number == pr2)
        = false := by
      cases h1 : (installation_id == inst2 && repository == repo2 && pr_number == pr2) with
      | false => rfl
      | true =>
        exfalso
        simp only [Bool.and_eq_true, beq_iff_eq] at h1
        exact hdiff ⟨h1.1.1.symm, h1.1.2.symm, h1.2.symm⟩
    rw [hnew, Bool.or_false]
    have h2 : ∀ u ∈ reg,
        ((!(u.installation_id == installation_id && u.repository == repository &&
            u.pr_number == pr_number)) &&
         (u.installation_id == inst2 && u.repository == repo2 && u.pr_number == pr2)) =
        (u.installation_id == inst2 && u.repository == repo2 && u.pr_number == pr2) := by
      intro u _
      cases hq : (u.installation_id == inst2 && u.repository == repo2 &&
          u.pr_number == pr2) with
      | false => simp
      | true =>
        have hq' := hq
        simp only [Bool.and_eq_true, beq_iff_eq] at hq'
        have hp : (u.installation_id == installation_id && u.repository == repository &&
            u.pr_number == pr_number) = false := by
          cases hc : (u.installation_id == installation_id && u.repository == repository &&
              u.pr_number == pr_number) with
          | false => rfl
          | true =>
            exfalso
            simp only [Bool.and_eq_true, beq_iff_eq] at hc
            refine hdiff ⟨?_, ?_, ?_⟩
            · rw [← hq'.1.1]; exact hc.1.1
            · rw [← hq'.1.2]; exact hc.1.2
            · rw [← hq'.2]; exact hc.2
        rw [hp]
        rfl
    exact anyCongr reg h2

/-- Witness for C5: re-unlocking PR 6 of the sample repository on a
registry that already holds PR 6's row. -/
theorem unlock_pr_upsert_spec_witness :
    ¬((8 : Int) = 7 ∧ "octo/repo" = "octo/repo" ∧ (6 : Nat) = 6) ∧
    (UnlockedPr.is_pr_unlocked
      (UnlockedPr.unlock_pr [sampleUnlockedPr] 101 7 "octo/repo" 6 "bob" 5)
      7 "octo/repo" 6 = true ∧
    tripleRows (UnlockedPr.unlock_pr [sampleUnlockedPr] 101 7 "octo/repo" 6 "bob" 5)
      7 "octo/repo" 6 = [newUnlockRow 101 7 "octo/repo" 6 "bob" 5] ∧
    UnlockedPr.is_pr_unlocked
      (UnlockedPr.unlock_pr [sampleUnlockedPr] 101 7 "octo/repo" 6 "bob" 5)
      8 "octo/repo" 6 = UnlockedPr.is_pr_unlocked [sampleUnlockedPr] 8 "octo/repo" 6 ∧
    (FreezeManager.unlock_pr (some sampleActiveFreeze) [sampleUnlockedPr] 101 7
      "octo/repo" 6 "bob" 5).refreshed_pr = some 6) :=
  ⟨by decide,
    unlock_pr_upsert_spec [sampleUnlockedPr] 101 7 "octo/repo" 6 "bob" 5
      sampleActiveFreeze 8 "octo/repo" 6 (by decide)⟩

/-- The synchronizer-internal view of one open pull request: number, head
commit sha, base branch. -/
structure PullRequestInfo where
  number : Nat
  head_sha : String
  base_ref : String
deriving DecidableEq, Repr

/-- Outcome of one synchronization pass. -/
structure RefreshResult where
  total_prs : Nat
  successful_updates : Nat
  failed_updates : Nat
  errors : List String
deriving DecidableEq, Repr

/-- Configuration of the refresh pipeline. -/
structure RefreshConfig where
  max_concurrent_requests : Nat
  batch_delay_ms : Nat
  max_retries : Nat
  base_retry_delay_ms : Nat
deriving DecidableEq, Repr

/-- Model of `RefreshConfig::default`. -/
def RefreshConfig.default : RefreshConfig :=
  { max_concurrent_requests := 10, batch_delay_ms := 100, max_retries := 3,
    base_retry_delay_ms := 1000 }

/-- The two check-run conclusions the synchronizer creates. -/
inductive CheckRunConclusion
  | success
  | failure
deriving DecidableEq, Repr

/-- The per-PR frozen test of the bulk refresh closure inside
`update_prs_in_batches`: with a freeze record present, a branch scope
freezes exactly the PRs based on that branch and no scope freezes all;
with no record nothing is frozen.  The closure consults nothing else — in
particular not the unlock registry. -/
def isPrFrozenBulk (freeze_record : Option FreezeRecord) (pr : PullRequestInfo) : Bool :=
  match freeze_record with
  | some freeze =>
      match freeze.branch with
      | some freeze_branch => pr.base_ref == freeze_branch
      | none => true
  | none => false

/-- The conclusion the bulk refresh closure passes to the check-run
creation for one PR. -/
def bulkConclusion (freeze_record : Option FreezeRecord) (pr : PullRequestInfo) :
    CheckRunConclusion :=
  if isPrFrozenBulk freeze_record pr then CheckRunConclusion.failure
  else CheckRunConclusion.success

/-- The conclusion computed by `refresh_single_pr`: the same frozen test
(branch comparison written the other way around in the source), then an
unlock-registry lookup performed only when frozen, and failure exactly
when frozen and not unlocked. -/
def singleConclusion (freeze_record : Option FreezeRecord) (reg : List UnlockedPr)
    (installation_id : Int) (repo_name : String) (pr : PullRequestInfo) :
    CheckRunConclusion :=
  let is_frozen :=
    match freeze_record with
    | some freeze =>
        match freeze.branch with
        | some freeze_branch => freeze_branch == pr.base_ref
        | none => true
    | none => false
  let is_unlocked :=
    if is_frozen then UnlockedPr.is_pr_unlocked reg installation_id repo_name pr.number
    else false
  if is_frozen && !is_unlocked then CheckRunConclusion.failure
  else CheckRunConclusion.success

/-- Written from the spec's per-change-request frozen determination: no
Active freeze → not frozen; a branch scope → frozen iff the base branch
equals the scope; otherwise frozen for every open request; and an Unlock
Registry entry for the request overrides everything to not frozen. -/
def specFrozenDetermination (freeze_record : Option FreezeRecord) (reg : List UnlockedPr)
    (installation_id : Int) (repo_name : String) (pr : PullRequestInfo) : Bool :=
  if UnlockedPr.is_pr_unlocked reg installation_id repo_name pr.number then false
  else
    match freeze_record with
    | none => false
    | some freeze =>
        match freeze.branch with
        | some b => pr.base_ref == b
        | none => true

/-- The conclusion the spec's determination dictates. -/
def specConclusion (freeze_record : Option FreezeRecord) (reg : List UnlockedPr)
    (installation_id : Int) (repo_name : String) (pr : PullRequestInfo) :
    CheckRunConclusion :=
  if specFrozenDetermination freeze_record reg installation_id repo_name pr then
    CheckRunConclusion.failure
  else CheckRunConclusion.success

/-- Written from the spec's determination with the override clause
removed: the first three bullets only. -/
def specFrozenNoOverride (freeze_record : Option FreezeRecord) (pr : PullRequestInfo) :
    Bool :=
  match freeze_record with
  | none => false
  | some freeze =>
      match freeze.branch with
      | some b => pr.base_ref == b
      | none => true

/-- Equality test `==` is symmetric for lawful instances. -/
theorem beqSymm {α : Type} [BEq α] [LawfulBEq α] (a b : α) : (a == b) = (b == a) := by
  rw [Bool.eq_iff_iff]
  simp only [beq_iff_eq]
  exact eq_comm

/-- The sample open pull request number 6, based on branch main. -/
def samplePr6 : PullRequestInfo :=
  { number := 6, head_sha := "headsha6", base_ref := "main" }

/-- C1 counterexample: under the sample all-branches Active freeze with
PR 6 in the Unlock Registry, the bulk refresh closure concludes failure
for PR 6 while the spec's determination (override wins) dictates pass —
the bulk pass does not compute conclusions by the spec's determination. -/
theorem bulk_refresh_ignores_unlock_registry :
    bulkConclusion (some sampleActiveFreeze) samplePr6 = CheckRunConclusion.failure ∧
    specConclusion (some sampleActiveFreeze) [sampleUnlockedPr] 7 "octo/repo" samplePr6 =
      CheckRunConclusion.success := by
  constructor
  · decide
  · decide

/-- C1 (amended): the single-change-request refresh computes exactly the
spec's determination, override included; the bulk refresh computes the
determination without the override clause — it never consults the Unlock
Registry. -/
theorem conclusion_matches_determination (freeze_record : Option FreezeRecord)
    (reg : List UnlockedPr) (installation_id : Int) (repo_name : String)
    (pr : PullRequestInfo) :
    singleConclusion freeze_record reg installation_id repo_name pr =
      specConclusion freeze_record reg installation_id repo_name pr ∧
    bulkConclusion freeze_record pr =
      (if specFrozenNoOverride freeze_record pr then CheckRunConclusion.failure
       else CheckRunConclusion.success) := by
  constructor
  · cases freeze_record with
    | none =>
      simp only [singleConclusion, specConclusion, specFrozenDetermination]
      cases UnlockedPr.is_pr_unlocked reg installation_id repo_name pr.number <;> rfl
    | some freeze =>
      cases hbr : freeze.branch with
      | none =>
        simp only [singleConclusion, specConclusion, specFrozenDetermination, hbr]
        cases UnlockedPr.is_pr_unlocked reg installation_id repo_name pr.number <;> rfl
      | some b =>
        simp only [singleConclusion, specConclusion, specFrozenDetermination, hbr,
          beqSymm b pr.base_ref]
        cases hB : pr.base_ref == b <;>
          cases hU : UnlockedPr.is_pr_unlocked reg installation_id repo_name pr.number <;>
          rfl
  · cases freeze_record with
    | none => rfl
    | some freeze =>
      cases hbr : freeze.branch with
      | none => simp [bulkConclusion, isPrFrozenBulk, specFrozenNoOverride, hbr]
      | some b => simp [bulkConclusion, isPrFrozenBulk, specFrozenNoOverride, hbr]

/-- Model of `slice::chunks`: split a list into consecutive chunks of `n` elements,
the last one possibly shorter (for `n ≥ 1`). -/
def chunksOf {α : Type} (n : Nat) : List α → List (List α)
  | [] => []
  | a :: l => (a :: l.take (n - 1)) :: chunksOf n (l.drop (n - 1))
termination_by l => l.length
decreasing_by simp [List.length_drop]; omega

/-- Joining the chunks gives the original list back. -/
theorem chunksOf_join {α : Type} (n : Nat) (l : List α) : (chunksOf n l).flatten = l := by
  induction l using chunksOf.induct n with
  | case1 => rw [chunksOf]; rfl
  | case2 a l ih =>
    rw [chunksOf, List.flatten_cons, ih, List.cons_append, List.take_append_drop]

/-- The per-unit result of one retried status-create: `none` for a unit
that eventually succeeded, `some msg` for a unit whose retries were
exhausted (or whose task failed to join), carrying the formatted error
string the aggregation pushes. -/
def UnitOutcome : Type := PullRequestInfo → CheckRunConclusion → Option String

/-- Aggregation of one unit's outcome into the (successful, failed,
errors) accumulator of `update_prs_in_batches`: a success increments the
success counter; a failure increments the failure counter and appends the
formatted error string. -/
def processPr (freeze_record : Option FreezeRecord) (outcome : UnitOutcome)
    (acc : Nat × Nat × List String) (pr : PullRequestInfo) : Nat × Nat × List String :=
  match outcome pr (bulkConclusion freeze_record pr) with
  | none => (acc.1 + 1, acc.2.1, acc.2.2)
  | some e => (acc.1, acc.2.1 + 1, acc.2.2 ++ [e])

/-- Waiting on all the handles of one chunk, accumulating each unit's
outcome in order. -/
def processChunk (freeze_record : Option FreezeRecord) (outcome : UnitOutcome)
    (acc : Nat × Nat × List String) (chunk : List PullRequestInfo) :
    Nat × Nat × List String :=
  chunk.foldl (processPr freeze_record outcome) acc

/-- Model of `update_prs_in_batches`: chunk the PR list by the concurrency bound,
process every chunk (each unit computes its bulk conclusion then performs
the retried status-create), and return one RefreshResult over all units. -/
def update_prs_in_batches (prs : List PullRequestInfo)
    (freeze_record : Option FreezeRecord) (outcome : UnitOutcome)
    (config : RefreshConfig) : RefreshResult :=
  let counts := (chunksOf config.max_concurrent_requests prs).foldl
    (processChunk freeze_record outcome) (0, 0, [])
  { total_prs := prs.length, successful_updates := counts.1,
    failed_updates := counts.2.1, errors := counts.2.2 }

/-- Model of `get_open_prs_with_sha`: one call to the gateway's list endpoint with
`state = open` and `per_page = 100`, mapping each returned PR to its
number, head sha and base branch.  The input is the full list of open PRs
the remote holds (`none` models a gateway failure); the single page
returned holds at most the first 100 of them. -/
def get_open_prs_with_sha (gatewayPrs : Option (List PullRequestInfo)) :
    Except String (List PullRequestInfo) :=
  match gatewayPrs with
  | none => Except.error "Failed to fetch open PRs"
  | some prs => Except.ok (prs.take 100)

/-- Model of `refresh_repository_prs`: fetch the open PRs (a fetch failure aborts
the pass as an error), return the empty RefreshResult immediately when the
list is empty, and otherwise run the batched update over the fetched
list. -/
def refresh_repository_prs (gatewayPrs : Option (List PullRequestInfo))
    (freeze_record : Option FreezeRecord) (outcome : UnitOutcome)
    (config : RefreshConfig) : Except String RefreshResult :=
  match get_open_prs_with_sha gatewayPrs with
  | Except.error e => Except.error e
  | Except.ok prs =>
      if prs.isEmpty then
        Except.ok { total_prs := 0, successful_updates := 0, failed_updates := 0, errors := [] }
      else
        Except.ok (update_prs_in_batches prs freeze_record outcome config)

/-- One unit's final result as a predicate: the unit succeeded. -/
def unitOk (freeze_record : Option FreezeRecord) (outcome : UnitOutcome)
    (pr : PullRequestInfo) : Bool :=
  (outcome pr (bulkConclusion freeze_record pr)).isNone

/-- Processing a chunk from any accumulator adds the chunk's success and
failure counts and appends the chunk's error strings in order. -/
theorem processChunk_spec (freeze_record : Option FreezeRecord) (outcome : UnitOutcome)
    (chunk : List PullRequestInfo) :
    ∀ acc : Nat × Nat × List String,
      processChunk freeze_record outcome acc chunk =
        (acc.1 + chunk.countP (unitOk freeze_record outcome),
         acc.2.1 + chunk.countP (fun pr => !unitOk freeze_record outcome pr),
         acc.2.2 ++ chunk.filterMap
           (fun pr => outcome pr (bulkConclusion freeze_record pr))) := by
  induction chunk with
  | nil => intro acc; simp [processChunk]
  | cons pr chunk ih =>
    intro acc
    rw [processChunk, List.foldl_cons]
    have := ih (processPr freeze_record outcome acc pr)
    rw [processChunk] at this
    rw [this]
    cases hout : outcome pr (bulkConclusion freeze_record pr) with
    | none =>
      simp [processPr, hout, List.countP_cons, List.filterMap_cons, unitOk]
      omega
    | some e =>
      simp [processPr, hout, List.countP_cons, List.filterMap_cons, unitOk]
      omega

/-- Folding the chunk processor over any chunk decomposition counts the
units of the concatenation. -/
theorem foldl_processChunk_spec (freeze_record : Option FreezeRecord)
    (outcome : UnitOutcome) (cs : List (List PullRequestInfo)) :
    ∀ acc : Nat × Nat × List String,
      cs.foldl (processChunk freeze_record outcome) acc =
        (acc.1 + cs.flatten.countP (unitOk freeze_record outcome),
         acc.2.1 + cs.flatten.countP (fun pr => !unitOk freeze_record outcome pr),
         acc.2.2 ++ cs.flatten.filterMap
           (fun pr => outcome pr (bulkConclusion freeze_record pr))) := by
  induction cs with
  | nil => intro acc; simp
  | cons c cs ih =>
    intro acc
    rw [List.foldl_cons, ih, processChunk_spec]
    simp [List.flatten_cons, List.countP_append, List.filterMap_append]
    omega

/-- The batched update equals the flat per-unit aggregation over all the
candidates: total is the candidate count, the success and failure counters
count the units by their own outcome alone, and the error list holds
exactly the failing units' formatted strings, in order. -/
theorem update_prs_in_batches_flat (prs : List PullRequestInfo)
    (freeze_record : Option FreezeRecord) (outcome : UnitOutcome)
    (config : RefreshConfig) :
    update_prs_in_batches prs freeze_record outcome config =
      { total_prs := prs.length,
        successful_updates := prs.countP (unitOk freeze_record outcome),
        failed_updates := prs.countP (fun pr => !unitOk freeze_record outcome pr),
        errors := prs.filterMap
          (fun pr => outcome pr (bulkConclusion freeze_record pr)) } := by
  rw [update_prs_in_batches]
  rw [foldl_processChunk_spec, chunksOf_join]
  simp

/-- The i-th sample open pull request (number `i + 1`, based on main). -/
def mkOpenPr (i : Nat) : PullRequestInfo :=
  { number := i + 1, head_sha := "sha", base_ref := "main" }

/-- A repository with 101 open pull requests. -/
def openPrs101 : List PullRequestInfo := (List.range 101).map mkOpenPr

set_option maxRecDepth 4000 in
/-- C6 counterexample: with 101 open pull requests, the single
`per_page = 100` page fetched by `get_open_prs_with_sha` misses PR 101, so
the pass's candidate set does not cover every open change request: the
refresh runs over 100 candidates, not 101. -/
theorem bulk_fetch_misses_pr_beyond_page :
    mkOpenPr 100 ∈ openPrs101 ∧
    get_open_prs_with_sha (some openPrs101) = Except.ok (openPrs101.take 100) ∧
    mkOpenPr 100 ∉ openPrs101.take 100 ∧
    refresh_repository_prs (some openPrs101) none (fun _ _ => none)
        RefreshConfig.default =
      Except.ok { total_prs := 100, successful_updates := 100, failed_updates := 0, errors := [] } := by
  refine ⟨by decide, rfl, by decide, ?_⟩
  have hne : (openPrs101.take 100).isEmpty = false := by decide
  have hupd : update_prs_in_batches (openPrs101.take 100) none (fun _ _ => none)
      RefreshConfig.default =
      { total_prs := 100, successful_updates := 100, failed_updates := 0,
        errors := [] } := by
    rw [update_prs_in_batches_flat]
    decide
  simp only [refresh_repository_prs, get_open_prs_with_sha, hne, Bool.false_eq_true,
    if_false, hupd]

/-- C6 (amended): the bulk pass fetches a single page of at most 100 open
pull requests — each fetched one carried with its number, head commit and
base branch — and runs over exactly that page, so every open change
request is covered only when at most 100 are open; a failure of the list
fetch aborts the whole pass as an error. -/
theorem bulk_fetch_first_page (openPrs smallPrs : List PullRequestInfo)
    (freeze_record : Option FreezeRecord) (outcome : UnitOutcome)
    (config : RefreshConfig) (hsmall : smallPrs.length ≤ 100) :
    get_open_prs_with_sha (some openPrs) = Except.ok (openPrs.take 100) ∧
    get_open_prs_with_sha (some smallPrs) = Except.ok smallPrs ∧
    refresh_repository_prs none freeze_record outcome config =
      Except.error "Failed to fetch open PRs" ∧
    (openPrs.take 100 ≠ [] →
      refresh_repository_prs (some openPrs) freeze_record outcome config =
        Except.ok (update_prs_in_batches (openPrs.take 100) freeze_record outcome
          config)) := by
  refine ⟨rfl, ?_, rfl, ?_⟩
  · rw [get_open_prs_with_sha, List.take_of_length_le hsmall]
  · intro hne
    have hne' : (openPrs.take 100).isEmpty = false := by
      cases hq : openPrs.take 100 with
      | nil => exact absurd hq hne
      | cons a l => rfl
    simp only [refresh_repository_prs, get_open_prs_with_sha, hne', Bool.false_eq_true,
      if_false]

/-- Witness for C6's amended statement: 101 open PRs for the general page
conjuncts, two open PRs for the at-most-100 case. -/
theorem bulk_fetch_first_page_witness :
    (([mkOpenPr 0, mkOpenPr 1] : List PullRequestInfo).length ≤ 100) ∧
    (get_open_prs_with_sha (some openPrs101) = Except.ok (openPrs101.take 100) ∧
    get_open_prs_with_sha (some [mkOpenPr 0, mkOpenPr 1]) =
      Except.ok [mkOpenPr 0, mkOpenPr 1] ∧
    refresh_repository_prs none none (fun _ _ => none) RefreshConfig.default =
      Except.error "Failed to fetch open PRs" ∧
    (openPrs101.take 100 ≠ [] →
      refresh_repository_prs (some openPrs101) none (fun _ _ => none)
          RefreshConfig.default =
        Except.ok (update_prs_in_batches (openPrs101.take 100) none (fun _ _ => none)
          RefreshConfig.default))) :=
  ⟨by decide,
    bulk_fetch_first_page openPrs101 [mkOpenPr 0, mkOpenPr 1] none (fun _ _ => none)
      RefreshConfig.default (by decide)⟩

/-- C7: every synchronization pass conserves its units — successful plus
failed updates equal the number of candidates, which is the recorded
total, the error list holds exactly one entry per failed update, and a
pass over an empty candidate list returns the all-zero RefreshResult
immediately. -/
theorem refresh_result_conservation (prs : List PullRequestInfo)
    (freeze_record : Option FreezeRecord) (outcome : UnitOutcome)
    (config : RefreshConfig) :
    (update_prs_in_batches prs freeze_record outcome config).successful_updates +
      (update_prs_in_batches prs freeze_record outcome config).failed_updates =
        prs.length ∧
    (update_prs_in_batches prs freeze_record outcome config).total_prs = prs.length ∧
    (update_prs_in_batches prs freeze_record outcome config).errors.length =
      (update_prs_in_batches prs freeze_record outcome config).failed_updates ∧
    refresh_repository_prs (some []) freeze_record outcome config =
      Except.ok { total_prs := 0, successful_updates := 0, failed_updates := 0, errors := [] } := by
  rw [update_prs_in_batches_flat]
  refine ⟨?_, rfl, ?_, rfl⟩
  · simp [List.length_eq_countP_add_countP (unitOk freeze_record outcome) prs]
  · simp only [List.length_filterMap_eq_countP]
    refine List.countP_congr ?_
    intro pr _
    rw [unitOk]
    cases outcome pr (bulkConclusion freeze_record pr) <;> simp

/-- C9: per-unit failures are isolated — whatever each unit's outcome, the
pass returns (never throws) one RefreshResult whose counters are the
pointwise counts over every candidate and whose error list collects
exactly the failing units' formatted strings in order: a failing unit
contributes one error string and one failed increment and removes no other
candidate from the pass. -/
theorem per_unit_failure_isolated (prs : List PullRequestInfo)
    (freeze_record : Option FreezeRecord) (outcome : UnitOutcome)
    (config : RefreshConfig) :
    update_prs_in_batches prs freeze_record outcome config =
      { total_prs := prs.length,
        successful_updates := prs.countP (unitOk freeze_record outcome),
        failed_updates := prs.countP (fun pr => !unitOk freeze_record outcome pr),
        errors := prs.filterMap
          (fun pr => outcome pr (bulkConclusion freeze_record pr)) } ∧
    (refresh_repository_prs (some prs) freeze_record outcome config).isOk = true := by
  refine ⟨update_prs_in_batches_flat prs freeze_record outcome config, ?_⟩
  simp only [refresh_repository_prs, get_open_prs_with_sha]
  cases hq : (prs.take 100).isEmpty <;> rfl

/-- The retry loop of `update_pr_with_retry`: `attemptOk i` says whether
the i-th call to `create_check_run` succeeds.  `attempt` is the loop
counter of the source (number of failures so far); the fuel is the number
of loop iterations left, `max_retries + 1` at entry, so the loop runs at
most `max_retries + 1` calls.  On a failure that still has retries left
the loop sleeps `base_retry_delay_ms * 2 ^ ((attempt + 1) - 1)`
milliseconds — recorded in the returned delay list — and tries again;
exhausting the retries returns a failure. -/
def retryFrom (attemptOk : Nat → Bool) (config : RefreshConfig) :
    Nat → Nat → Bool × List Nat
  | _, 0 => (false, [])
  | attempt, fuel + 1 =>
    if attemptOk attempt then (true, [])
    else if attempt + 1 ≤ config.max_retries then
      let delay := config.base_retry_delay_ms * 2 ^ attempt
      let rest := retryFrom attemptOk config (attempt + 1) fuel
      (rest.1, delay :: rest.2)
    else (false, [])

/-- Model of `update_pr_with_retry`: run the retry loop from attempt 0. -/
def update_pr_with_retry (attemptOk : Nat → Bool) (config : RefreshConfig) :
    Bool × List Nat :=
  retryFrom attemptOk config 0 (config.max_retries + 1)

/-- The ladder of backoff delays: `k` delays starting at attempt number
`attempt`, each `base_retry_delay_ms * 2 ^ attempt` for its attempt. -/
def backoffDelays (config : RefreshConfig) : Nat → Nat → List Nat
  | _, 0 => []
  | attempt, k + 1 =>
      config.base_retry_delay_ms * 2 ^ attempt :: backoffDelays config (attempt + 1) k

/-- The delay ladder in closed form. -/
theorem backoffDelays_eq_range_map (config : RefreshConfig) :
    ∀ (k attempt : Nat), backoffDelays config attempt k =
      (List.range k).map fun i => config.base_retry_delay_ms * 2 ^ (attempt + i) := by
  intro k
  induction k with
  | zero => intro attempt; rfl
  | succ k ih =>
    intro attempt
    rw [backoffDelays, ih (attempt + 1), List.range_succ_eq_map, List.map_cons,
      List.map_map]
    have hfun : ((fun i => config.base_retry_delay_ms * 2 ^ (attempt + i)) ∘ Nat.succ)
        = fun i => config.base_retry_delay_ms * 2 ^ (attempt + 1 + i) := by
      funext i
      simp only [Function.comp]
      rw [show attempt + Nat.succ i = attempt + 1 + i from by omega]
    rw [hfun]
    simp

/-- When every call fails, the loop runs all its attempts, sleeping the
full doubling ladder of delays, and ends in failure. -/
theorem retryFrom_all_fail (attemptOk : Nat → Bool) (config : RefreshConfig)
    (hAll : ∀ i, attemptOk i = false) :
    ∀ fuel attempt, attempt + fuel = config.max_retries + 1 →
      retryFrom attemptOk config attempt fuel =
        (false, backoffDelays config attempt (fuel - 1)) := by
  intro fuel
  induction fuel with
  | zero => intro attempt h; rfl
  | succ fuel ih =>
    intro attempt h
    rw [retryFrom]
    simp only [hAll attempt, Bool.false_eq_true, if_false]
    by_cases hle : attempt + 1 ≤ config.max_retries
    · rw [if_pos hle, ih (attempt + 1) (by omega)]
      have hfuel : fuel = (fuel - 1) + 1 := by omega
      simp only [Nat.succ_sub_one]
      conv_rhs => rw [hfuel, backoffDelays]
    · rw [if_neg hle]
      have hfuel : fuel = 0 := by omega
      subst hfuel
      rfl

/-- C8: per-unit retry with exponential backoff.  A unit whose call fails
twice then succeeds on the third attempt ends as a success after sleeping
first `base_retry_delay_ms` then `2 * base_retry_delay_ms`; a unit whose
calls all fail runs all `max_retries + 1` attempts, sleeping
`base_retry_delay_ms * 2 ^ (attempt - 1)` before each retry, and only then
ends as a failure; and the default configuration retries 3 times with a
1000 ms base delay. -/
theorem retry_backoff_spec (config : RefreshConfig) (ok okAll : Nat → Bool)
    (h0 : ok 0 = false) (h1 : ok 1 = false) (h2 : ok 2 = true)
    (hmax : 2 <= config.max_retries) (hAll : ∀ i, okAll i = false) :
    update_pr_with_retry ok config =
      (true, [config.base_retry_delay_ms, 2 * config.base_retry_delay_ms]) ∧
    update_pr_with_retry okAll config =
      (false, (List.range config.max_retries).map
        fun i => config.base_retry_delay_ms * 2 ^ i) ∧
    RefreshConfig.default.max_retries = 3 ∧
    RefreshConfig.default.base_retry_delay_ms = 1000 := by
  refine ⟨?_, ?_, rfl, rfl⟩
  · obtain ⟨k, hk⟩ : ∃ k, config.max_retries = k + 2 :=
      ⟨config.max_retries - 2, by omega⟩
    rw [update_pr_with_retry, hk]
    rw [retryFrom]
    simp only [h0, Bool.false_eq_true, if_false]
    rw [if_pos (by omega), retryFrom]
    simp only [h1, Bool.false_eq_true, if_false]
    rw [if_pos (by omega), retryFrom]
    simp only [h2, if_true]
    norm_num
    omega
  · rw [update_pr_with_retry,
      retryFrom_all_fail okAll config hAll (config.max_retries + 1) 0 (by omega),
      backoffDelays_eq_range_map]
    simp

/-- Witness for C8 at the default configuration: a unit succeeding on its
third call and a unit that never succeeds. -/
theorem retry_backoff_spec_witness :
    ((fun i => decide (2 <= i)) 0 = false ∧ (fun i => decide (2 <= i)) 1 = false ∧
      (fun i => decide (2 <= i)) 2 = true ∧ 2 <= RefreshConfig.default.max_retries ∧
      (∀ i, (fun _ : Nat => false) i = false)) ∧
    (update_pr_with_retry (fun i => decide (2 <= i)) RefreshConfig.default =
      (true, [RefreshConfig.default.base_retry_delay_ms,
        2 * RefreshConfig.default.base_retry_delay_ms]) ∧
    update_pr_with_retry (fun _ => false) RefreshConfig.default =
      (false, (List.range RefreshConfig.default.max_retries).map
        fun i => RefreshConfig.default.base_retry_delay_ms * 2 ^ i) ∧
    RefreshConfig.default.max_retries = 3 ∧
    RefreshConfig.default.base_retry_delay_ms = 1000) :=
  ⟨⟨rfl, rfl, rfl, by decide, fun i => rfl⟩,
    retry_backoff_spec RefreshConfig.default (fun i => decide (2 <= i)) (fun _ => false)
      rfl rfl rfl (by decide) (fun i => rfl)⟩

/-- Model of `notify_comment_issue`: post the acknowledgement comment through the
gateway; an error of the post is only logged.  The input is the result the
comment post would produce; the output is the log lines emitted. -/
def notify_comment_issue (postResult : Except String Unit) : List String :=
  match postResult with
  | Except.ok _ => []
  | Except.error e => ["Unable do send comment: " ++ e]

/-- Modelled from the spec: the body of `FreezeRecord::get_active_freeze`
is missing from the sources (only its callers are present); per the spec's
`get_active(installation, repository)` it returns the current Active
record of the pair, if any. -/
def get_active_freeze (recs : List FreezeRecord) (installation_id : Int)
    (repository : String) : Option FreezeRecord :=
  (recs.filter fun r => r.installation_id == installation_id &&
    r.repository == repository && r.status == FreezeStatus.active).head?

/-- What one lifecycle command produced: the store afterwards, the
acknowledgement outcome it computed (success/error marker, abstracting the
message text), the log lines, and the PR handed to the single refresh, if
any. -/
structure CommandRun where
  state : SystemState
  outcome : String
  logs : List String
  refreshed_pr : Option Nat

/-- Model of `FreezeManager::freeze` for one repository: `handle_freeze` persists
the record through `FreezeRecord::create` (a failing PR refresh afterwards
is logged and swallowed), the acknowledgement message reflects creation
success or failure, and `notify_comment_issue` posts it. -/
def freezeCommand (st : SystemState) (record : FreezeRecord)
    (postResult : Except String Unit) : CommandRun :=
  let created := FreezeRecord.create st.freezes record
  { state := { freezes := created.2, unlocks := st.unlocks }
    outcome :=
      match created.1 with
      | Except.ok _ => "freeze_success"
      | Except.error e => "freeze_error: " ++ e
    logs := notify_comment_issue postResult
    refreshed_pr := none }

/-- Model of `FreezeManager::unfreeze`: `handle_unfreeze`, then the acknowledgement
message for its outcome, then `notify_comment_issue`. -/
def unfreezeCommand (st : SystemState) (installation_id : Int) (repository : String)
    (ended_by : String) (now : Nat) (postResult : Except String Unit) : CommandRun :=
  match handle_unfreeze st installation_id repository ended_by now with
  | Except.ok st' =>
      { state := st', outcome := "unfreeze_success"
        logs := notify_comment_issue postResult, refreshed_pr := none }
  | Except.error e =>
      { state := st, outcome := "unfreeze_error: " ++ e
        logs := notify_comment_issue postResult, refreshed_pr := none }

/-- Model of `FreezeManager::get_status` for one repository: a read-only listing of
the pair's Active records (frozen when one exists), then the comment. -/
def statusCommand (st : SystemState) (installation_id : Int) (repository : String)
    (postResult : Except String Unit) : CommandRun :=
  let actives := st.freezes.filter fun r => r.installation_id == installation_id &&
    r.repository == repository && r.status == FreezeStatus.active
  { state := st
    outcome := if actives.isEmpty then "status_not_frozen" else "status_frozen"
    logs := notify_comment_issue postResult
    refreshed_pr := none }

/-- Model of `FreezeManager::unlock_pr` as a command: with an Active freeze the
registry upsert runs, the acknowledgement is posted, and the single PR is
refreshed afterwards (the comment is posted before the refresh and its
failure is only logged, so the refresh still runs); with no Active freeze
nothing is stored or refreshed and an error acknowledgement is posted. -/
def unlockCommand (st : SystemState) (newId : Nat) (installation_id : Int)
    (repository : String) (pr_number : Nat) (author : String) (now : Nat)
    (postResult : Except String Unit) : CommandRun :=
  match get_active_freeze st.freezes installation_id repository with
  | some _ =>
      { state :=
          { freezes := st.freezes
            unlocks := UnlockedPr.unlock_pr st.unlocks newId installation_id repository
              pr_number author now }
        outcome := "pr_unlock_success"
        logs := notify_comment_issue postResult
        refreshed_pr := some pr_number }
  | none =>
      { state := st, outcome := "pr_unlock_not_frozen"
        logs := notify_comment_issue postResult, refreshed_pr := none }

/-- C10: for each acknowledgement-posting command — freeze, unfreeze,
status, unlock — a failure of the comment post changes nothing but the
logs: the stored state, the already-computed outcome, and the triggered
single refresh all equal those of a successful post. -/
theorem comment_failure_only_logged (st : SystemState) (record : FreezeRecord)
    (installation_id : Int) (repository : String) (actor : String) (now : Nat)
    (newId pr_number : Nat) (author : String) (p : Except String Unit) :
    ((freezeCommand st record p).state = (freezeCommand st record (Except.ok ())).state ∧
      (freezeCommand st record p).outcome =
        (freezeCommand st record (Except.ok ())).outcome ∧
      (freezeCommand st record p).refreshed_pr =
        (freezeCommand st record (Except.ok ())).refreshed_pr) ∧
    ((unfreezeCommand st installation_id repository actor now p).state =
        (unfreezeCommand st installation_id repository actor now (Except.ok ())).state ∧
      (unfreezeCommand st installation_id repository actor now p).outcome =
        (unfreezeCommand st installation_id repository actor now (Except.ok ())).outcome ∧
      (unfreezeCommand st installation_id repository actor now p).refreshed_pr =
        (unfreezeCommand st installation_id repository actor now
          (Except.ok ())).refreshed_pr) ∧
    ((statusCommand st installation_id repository p).state =
        (statusCommand st installation_id repository (Except.ok ())).state ∧
      (statusCommand st installation_id repository p).outcome =
        (statusCommand st installation_id repository (Except.ok ())).outcome ∧
      (statusCommand st installation_id repository p).refreshed_pr =
        (statusCommand st installation_id repository (Except.ok ())).refreshed_pr) ∧
    ((unlockCommand st newId installation_id repository pr_number author now p).state =
        (unlockCommand st newId installation_id repository pr_number author now
          (Except.ok ())).state ∧
      (unlockCommand st newId installation_id repository pr_number author now p).outcome =
        (unlockCommand st newId installation_id repository pr_number author now
          (Except.ok ())).outcome ∧
      (unlockCommand st newId installation_id repository pr_number author now
          p).refreshed_pr =
        (unlockCommand st newId installation_id repository pr_number author now
          (Except.ok ())).refreshed_pr) := by
  refine ⟨⟨rfl, rfl, rfl⟩, ?_, ⟨rfl, rfl, rfl⟩, ?_⟩
  · cases hu : handle_unfreeze st installation_id repository actor now <;>
      simp [unfreezeCommand, hu]
  · cases ha : get_active_freeze st.freezes installation_id repository <;>
      simp [unlockCommand, ha]

end Frezze
